import Mathlib

/-!
Verification of the Forter chargeback webhook mapping service
(`src/mapper.js`, `src/validator.js`, the `/webhook` handler, and the
Stripe mapping expression) against its natural-language specification.

The pipeline: an inbound JSON body carries a `payload`; the payload is
transformed by the compiled Stripe JSONata expression (`mapStripe`),
the candidate record is checked by the Ajv-compiled chargeback schema
(`validateChargeback`), and the handler answers
HTTP 200 `{result}` / 400 `{errors}` / 500 `{error}`.

JSON documents are embedded as an inductive type with rational numbers
(the arithmetic the expression performs, division of an integer amount
by 100, is exact, so ℚ is a faithful carrier for the values compared
here).  Absent values (JSONata `undefined`) are `Option.none`;
evaluation faults are `Except.error`.
-/

/-- A JSON document: null, booleans, numbers, strings, arrays, objects
(an object is a key-value list in insertion order, as serialized). -/
inductive Json where
  | null : Json
  | bool (b : Bool) : Json
  | num (q : ℚ) : Json
  | str (s : String) : Json
  | arr (elems : List Json) : Json
  | obj (fields : List (String × Json)) : Json

/-- First-match association lookup inside a JSON object's field list,
as JavaScript property access / Ajv property lookup behaves. -/
def lookupField : List (String × Json) → String → Option Json
  | [], _ => none
  | (k, v) :: rest, key => if k = key then some v else lookupField rest key

/-- Safe path navigation step: `getField d k` is the value of property
`k` when `d` is an object holding it, and absent (`none`) when `d` is
absent, not an object, or lacks the property — JSONata field access
never faults on a missing or wrong-typed intermediate node. -/
def getField (d : Option Json) (key : String) : Option Json :=
  match d with
  | some (Json.obj fields) => lookupField fields key
  | _ => none

/-- `optField k v` contributes the binding `(k, v)` to a constructed
object when `v` is present and nothing when it is absent — JSONata
object constructors omit keys whose value is `undefined`. -/
def optField (key : String) : Option Json → List (String × Json)
  | none => []
  | some v => [(key, v)]

/-- JSONata's `$uppercase`: upper-case every character of the string
(the provider fixtures are ASCII, where JavaScript `toUpperCase`
coincides with per-character upper-casing). -/
def jsonataUppercase (s : String) : String :=
  String.mk (s.data.map Char.toUpper)

/-- Message of the JSONata fault raised when an operand of `/` is a
present value that is not a number (error T2001/T2002). -/
def divTypeErrMsg : String :=
  "The left side of the / operator must evaluate to a number"

/-- Message of the JSONata fault raised when `$uppercase` is applied
to a present value that is not a string (error T0410). -/
def uppercaseTypeErrMsg : String :=
  "Argument 1 of function \x22uppercase\x22 does not match function signature"

/-- JSONata semantics of `$uppercase(path)`: an absent argument yields
an absent result; a string is upper-cased; any other present value
violates the function signature and raises a fault. -/
def evalUppercaseArg : Option Json → Except String (Option Json)
  | none => Except.ok none
  | some (Json.str s) => Except.ok (some (Json.str (jsonataUppercase s)))
  | some _ => Except.error uppercaseTypeErrMsg

/-- JSONata semantics of `path / 100`: an absent operand yields an
absent result; a number is divided by 100; any other present value
raises an arithmetic-type fault. -/
def evalDiv100 : Option Json → Except String (Option Json)
  | none => Except.ok none
  | some (Json.num q) => Except.ok (some (Json.num (q / 100)))
  | some _ => Except.error divTypeErrMsg

/-- Modelled from the spec: `src/providers/stripe.jsonata` is not in the
source tree; per spec sections 3, 8 and the README it builds
`{"transaction_id": data.object.charge, "reason": data.object.reason,
"currency": $uppercase(data.object.currency),
"amount": data.object.amount / 100, "provider": "stripe"}`.
`mapStripe` evaluates this compiled expression on the payload
(`stripeExpression.evaluate(payload)` in `src/mapper.js`): absent source
paths propagate to omitted output keys; the construct evaluates values
in key order, so a present non-string currency faults before a present
non-number amount; a fault is a rejected promise the handler's `catch`
later converts to HTTP 500. -/
def mapStripe (payload : Option Json) : Except String Json :=
  match evalUppercaseArg
      (getField (getField (getField payload "data") "object") "currency") with
  | Except.error e => Except.error e
  | Except.ok currency =>
    match evalDiv100
        (getField (getField (getField payload "data") "object") "amount") with
    | Except.error e => Except.error e
    | Except.ok amount =>
      Except.ok (Json.obj
        (optField "transaction_id"
          (getField (getField (getField payload "data") "object") "charge") ++
         (optField "reason"
           (getField (getField (getField payload "data") "object") "reason") ++
          (optField "currency" currency ++
           (optField "amount" amount ++
            [("provider", Json.str "stripe")])))))

/-- One schema violation as Ajv reports it and the handler serializes
it: an instance path (root = empty string) and a message. -/
structure Violation where
  instancePath : String
  message : String
deriving DecidableEq, Repr

/-- Ajv's message for a missing required property `k`:
`must have required property 'k'`. -/
def requiredMsg (k : String) : String :=
  "must have required property \x27" ++ k ++ "\x27"

/-- Modelled from the spec: `src/schema/chargeback.schema.json` is not in
the source tree; per spec section 3 it is an object schema with required
properties `transaction_id`, `reason`, `currency`, `amount`, `provider`,
all strings except the number `amount`.  This is the `required`-keyword
pass of the Ajv-compiled validator: the first missing required property
in schema-declaration order, or `none` when all are present.
`new Ajv()` in `src/validator.js` keeps the default `allErrors: false`,
so the compiled validator stops at the first violation. -/
def firstRequiredViolation (fields : List (String × Json)) : Option Violation :=
  if (lookupField fields "transaction_id").isSome then
    if (lookupField fields "reason").isSome then
      if (lookupField fields "currency").isSome then
        if (lookupField fields "amount").isSome then
          if (lookupField fields "provider").isSome then
            none
          else some ⟨"", requiredMsg "provider"⟩
        else some ⟨"", requiredMsg "amount"⟩
      else some ⟨"", requiredMsg "currency"⟩
    else some ⟨"", requiredMsg "reason"⟩
  else some ⟨"", requiredMsg "transaction_id"⟩

/-- Whether a present property satisfies its declared type; an absent
property raises no type violation (`required` handles absence). -/
def typeOk (fields : List (String × Json)) (key : String)
    (isTy : Json → Bool) : Bool :=
  match lookupField fields key with
  | none => true
  | some v => isTy v

/-- The JSON value is a string. -/
def Json.isStr : Json → Bool
  | Json.str _ => true
  | _ => false

/-- The JSON value is a number. -/
def Json.isNum : Json → Bool
  | Json.num _ => true
  | _ => false

/-- The `properties`-keyword pass of the Ajv-compiled validator: the
first type mismatch among present properties, in schema-declaration
order, or `none` when every present property has its declared type. -/
def firstTypeViolation (fields : List (String × Json)) : Option Violation :=
  if typeOk fields "transaction_id" Json.isStr then
    if typeOk fields "reason" Json.isStr then
      if typeOk fields "currency" Json.isStr then
        if typeOk fields "amount" Json.isNum then
          if typeOk fields "provider" Json.isStr then
            none
          else some ⟨"/provider", "must be string"⟩
        else some ⟨"/amount", "must be number"⟩
      else some ⟨"/currency", "must be string"⟩
    else some ⟨"/reason", "must be string"⟩
  else some ⟨"/transaction_id", "must be string"⟩

/-- The error list `validateChargeback.errors` exposed by the
Ajv-compiled validator after a run on `d`.  With the `new Ajv()`
defaults of `src/validator.js` (`allErrors: false`) validation
short-circuits, so the list holds at most the first violation:
the document must be an object, every required property must be
present (schema order), every present property must have its
declared type (schema order). -/
def ajvErrors (d : Json) : List Violation :=
  match d with
  | Json.obj fields =>
    match firstRequiredViolation fields with
    | some v => [v]
    | none =>
      match firstTypeViolation fields with
      | some v => [v]
      | none => []
  | _ => [⟨"", "must be object"⟩]

/-- The run of `validateChargeback` from `src/validator.js` on a
document.  The `new Ajv()` defaults mutate nothing (no `coerceTypes`,
`useDefaults`, or `removeAdditional`), so the run is modelled as the
error list paired with the document the validator leaves behind,
unchanged. -/
def validateRun (d : Json) : (List Violation) × Json :=
  (ajvErrors d, d)

/-- The boolean result of `validateChargeback(d)`. -/
def validateChargeback (d : Json) : Bool :=
  (ajvErrors d).isEmpty

/-- The tagged pipeline outcome of one request (spec section 6). -/
inductive Outcome where
  | succeeded (record : Json) : Outcome
  | rejected (errors : List Violation) : Outcome
  | failed (message : String) : Outcome

/-- The outcome is a `rejected`. -/
def Outcome.isRejected : Outcome → Bool
  | Outcome.rejected _ => true
  | _ => false

/-- The `/webhook` handler core of `src/mapper.js` on an extracted
payload: run `mapStripe`, then `validateChargeback`; a false validation
returns the validator's errors, a thrown evaluation fault is caught,
otherwise the mapped record is the success value. -/
def process (payload : Option Json) : Outcome :=
  match mapStripe payload with
  | Except.error msg => Outcome.failed msg
  | Except.ok mapped =>
    if validateChargeback mapped then Outcome.succeeded mapped
    else Outcome.rejected (ajvErrors mapped)

/-- The spec's `process(providerKey, rawPayload)` interface mapped onto
the code: the handler of `src/mapper.js` has no provider parameter and
no registry — every request runs the Stripe expression — so the key is
ignored. -/
def processWithProvider (_key : String) (payload : Option Json) : Outcome :=
  process payload

/-- Serialization of a violation in the 400 response body. -/
def violationToJson (v : Violation) : Json :=
  Json.obj [("instancePath", Json.str v.instancePath),
            ("message", Json.str v.message)]

/-- The full `/webhook` handler: extract `req.body.payload`, run the
pipeline, and serialize the outcome as (status, body):
succeeded → 200 `{"result": record}`, invalid → 400 `{"errors": [...]}`,
caught fault → 500 `{"error": message}`. -/
def handleWebhook (body : Json) : Nat × Json :=
  match process (getField (some body) "payload") with
  | Outcome.succeeded record => (200, Json.obj [("result", record)])
  | Outcome.rejected errs =>
      (400, Json.obj [("errors", Json.arr (errs.map violationToJson))])
  | Outcome.failed msg => (500, Json.obj [("error", Json.str msg)])

/-- The document satisfies the chargeback schema of spec section 3: an
object whose five required properties are present with their declared
types.  Stated independently of the validator so that validation
success can be checked against the schema itself. -/
def satisfiesSchema (d : Json) : Bool :=
  match d with
  | Json.obj fields =>
    (match lookupField fields "transaction_id" with
     | some (Json.str _) => true | _ => false) &&
    (match lookupField fields "reason" with
     | some (Json.str _) => true | _ => false) &&
    (match lookupField fields "currency" with
     | some (Json.str _) => true | _ => false) &&
    (match lookupField fields "amount" with
     | some (Json.num _) => true | _ => false) &&
    (match lookupField fields "provider" with
     | some (Json.str _) => true | _ => false)
  | _ => false

/-- The argument of `$uppercase` is absent or a string, so evaluating
the currency output field cannot fault. -/
def currencyWellTyped : Option Json → Bool
  | none => true
  | some (Json.str _) => true
  | some _ => false

/-- The Stripe dispute fixture of the test suite and spec section 8. -/
def stripeDisputePayload : Json :=
  Json.obj
    [("id", Json.str "evt_123"),
     ("type", Json.str "charge.dispute.created"),
     ("data", Json.obj
       [("object", Json.obj
         [("amount", Json.num 2599),
          ("currency", Json.str "usd"),
          ("reason", Json.str "fraudulent"),
          ("charge", Json.str "ch_98765")])])]

/-- The normalized record the fixture must map to (amount 25.99 is
2599/100 in decimal currency units). -/
def expectedStripeRecord : Json :=
  Json.obj
    [("transaction_id", Json.str "ch_98765"),
     ("reason", Json.str "fraudulent"),
     ("currency", Json.str "USD"),
     ("amount", Json.num ((2599 : ℚ) / 100)),
     ("provider", Json.str "stripe")]

/-- The payload of the missing-required-field scenario
(spec section 8, README "Test with Invalid Data"). -/
def missingFieldsPayload : Json :=
  Json.obj [("data", Json.obj [("object", Json.obj [("amount", Json.num 1000)])])]

/-- A payload whose `data.object.amount` is a string, so the mapping
expression's division faults. -/
def stringAmountPayload : Json :=
  Json.obj [("data", Json.obj [("object", Json.obj [("amount", Json.str "abc")])])]

/-- The empty JSON object `{}`. -/
def emptyObject : Json :=
  Json.obj []

/- ### General lemmas about the embedded pipeline -/

/-- Lookup skips a constructed optional field whose key differs. -/
theorem lookupField_skip_optField (key k : String) (o : Option Json)
    (l : List (String × Json)) (hne : k ≠ key) :
    lookupField (optField k o ++ l) key = lookupField l key := by
  cases o <;> simp [optField, lookupField, hne]

/-- A successful `mapStripe` always yields an object that carries the
literal binding `provider = "stripe"` and whose other keys come from
the four optional output fields. -/
theorem mapStripe_ok_provider (p : Option Json) (m : Json)
    (h : mapStripe p = Except.ok m) :
    getField (some m) "provider" = some (Json.str "stripe") := by
  unfold mapStripe at h
  cases hc : evalUppercaseArg
      (getField (getField (getField p "data") "object") "currency") with
  | error e => rw [hc] at h; exact Except.noConfusion h
  | ok currency =>
    rw [hc] at h
    cases ha : evalDiv100
        (getField (getField (getField p "data") "object") "amount") with
    | error e => rw [ha] at h; exact Except.noConfusion h
    | ok amount =>
      rw [ha] at h
      injection h with h'
      subst h'
      show lookupField _ "provider" = some (Json.str "stripe")
      rw [lookupField_skip_optField _ _ _ _ (by decide),
          lookupField_skip_optField _ _ _ _ (by decide),
          lookupField_skip_optField _ _ _ _ (by decide),
          lookupField_skip_optField _ _ _ _ (by decide)]
      simp [lookupField]

/-- Inversion of a succeeded pipeline run: the mapping succeeded with
the returned record and the validator accepted it. -/
theorem process_succeeded_inv (p : Option Json) (r : Json)
    (h : process p = Outcome.succeeded r) :
    mapStripe p = Except.ok r ∧ validateChargeback r = true := by
  unfold process at h
  split at h
  next msg heq => exact Outcome.noConfusion h
  next mapped heq =>
    split at h
    next hv =>
      injection h with h'
      subst h'
      exact ⟨heq, hv⟩
    next hv => exact Outcome.noConfusion h

/-- A present property whose declared type is string is a string
value. -/
theorem lookup_isStr (fields : List (String × Json)) (key : String)
    (hs : (lookupField fields key).isSome = true)
    (ht : typeOk fields key Json.isStr = true) :
    ∃ s, lookupField fields key = some (Json.str s) := by
  obtain ⟨v, hv⟩ := Option.isSome_iff_exists.mp hs
  unfold typeOk at ht
  rw [hv] at ht
  cases v <;> simp [Json.isStr] at ht
  exact ⟨_, hv⟩

/-- A present property whose declared type is number is a numeric
value. -/
theorem lookup_isNum (fields : List (String × Json)) (key : String)
    (hs : (lookupField fields key).isSome = true)
    (ht : typeOk fields key Json.isNum = true) :
    ∃ q, lookupField fields key = some (Json.num q) := by
  obtain ⟨v, hv⟩ := Option.isSome_iff_exists.mp hs
  unfold typeOk at ht
  rw [hv] at ht
  cases v <;> simp [Json.isNum] at ht
  exact ⟨_, hv⟩

/-- A document the Ajv-compiled validator accepts satisfies the
chargeback schema: no missing required property and no type mismatch
means all five fields are present with their declared types. -/
theorem validateChargeback_implies_schema (d : Json)
    (h : validateChargeback d = true) : satisfiesSchema d = true := by
  unfold validateChargeback at h
  rw [List.isEmpty_iff] at h
  cases d with
  | obj fields =>
    simp only [ajvErrors] at h
    cases hr : firstRequiredViolation fields with
    | some v => rw [hr] at h; simp at h
    | none =>
      rw [hr] at h
      cases ht : firstTypeViolation fields with
      | some v => rw [ht] at h; simp at h
      | none =>
        unfold firstRequiredViolation at hr
        unfold firstTypeViolation at ht
        split_ifs at hr with h1 h2 h3 h4 h5
        split_ifs at ht with g1 g2 g3 g4 g5
        obtain ⟨s1, hv1⟩ := lookup_isStr fields "transaction_id" h1 g1
        obtain ⟨s2, hv2⟩ := lookup_isStr fields "reason" h2 g2
        obtain ⟨s3, hv3⟩ := lookup_isStr fields "currency" h3 g3
        obtain ⟨q4, hv4⟩ := lookup_isNum fields "amount" h4 g4
        obtain ⟨s5, hv5⟩ := lookup_isStr fields "provider" h5 g5
        simp only [satisfiesSchema]
        rw [hv1, hv2, hv3, hv4, hv5]
        rfl
  | null => simp [ajvErrors] at h
  | bool b => simp [ajvErrors] at h
  | num q => simp [ajvErrors] at h
  | str s => simp [ajvErrors] at h
  | arr elems => simp [ajvErrors] at h

/- ### Claim theorems -/

/-- Claim C1: the Stripe dispute payload of the test fixture, processed
with provider "stripe", is mapped to `Succeeded` with exactly the
normalized record whose amount is the input amount divided by 100 and
whose currency is upper-cased. -/
theorem stripe_dispute_maps_to_forter_record :
    processWithProvider "stripe" (some stripeDisputePayload) =
      Outcome.succeeded expectedStripeRecord := by
  rfl

/-- Claim C2, counterexample: for the payload
`{"data":{"object":{"amount":1000}}}` the violation list is the single
first required-field violation (`transaction_id`), because the
Ajv-compiled validator of `src/validator.js` keeps the default
`allErrors: false` and short-circuits — it does not also report the
missing `reason` and `currency` (the README's own "Test with Invalid
Data" section shows exactly this one-element list). -/
theorem missing_fields_payload_single_violation :
    processWithProvider "stripe" (some missingFieldsPayload) =
      Outcome.rejected [⟨"", requiredMsg "transaction_id"⟩] ∧
    Violation.mk "" (requiredMsg "reason") ∉
      [Violation.mk "" (requiredMsg "transaction_id")] ∧
    Violation.mk "" (requiredMsg "currency") ∉
      [Violation.mk "" (requiredMsg "transaction_id")] := by
  refine ⟨rfl, ?_, ?_⟩ <;> decide

/-- Claim C2, amended: the violation list of a Rejected outcome is not
exhaustive — with the `new Ajv()` defaults (`allErrors: false`) the
validator stops at the first violated constraint (required fields in
schema-declaration order, then type checks in schema-declaration
order), so the error list never holds more than one entry. -/
theorem ajvErrors_length_le_one (d : Json) : (ajvErrors d).length ≤ 1 := by
  unfold ajvErrors
  cases d <;> simp
  case obj fields =>
    cases firstRequiredViolation fields <;> simp
    cases firstTypeViolation fields <;> simp

/-- Claim C3: whenever the pipeline returns `Succeeded`, the returned
record satisfies the fixed chargeback schema — all five required fields
present with their declared types; no invalid record is ever returned
as a success. -/
theorem succeeded_record_satisfies_schema (p : Option Json) (r : Json)
    (h : process p = Outcome.succeeded r) :
    satisfiesSchema r = true :=
  validateChargeback_implies_schema r (process_succeeded_inv p r h).2

/-- Witness for C3: the Stripe fixture run succeeds and its record
satisfies the schema. -/
theorem succeeded_record_satisfies_schema_witness :
    satisfiesSchema expectedStripeRecord = true :=
  succeeded_record_satisfies_schema (some stripeDisputePayload)
    expectedStripeRecord rfl

/-- Claim C4, counterexample: `process("nonexistent", {})` does not
return `Failed(UnknownProvider)` — `src/mapper.js` has no provider
registry and no resolve step, so the request is mapped with the Stripe
expression and rejected by validation instead. -/
theorem nonexistent_provider_not_failed :
    processWithProvider "nonexistent" (some emptyObject) =
      Outcome.rejected [⟨"", requiredMsg "transaction_id"⟩] := by
  rfl

/-- Claim C4, amended: there is no provider registry; every provider
key is handled identically by the Stripe expression, so for any key the
empty payload yields `Rejected` with the first missing-required-field
violation, never `Failed(UnknownProvider)`. -/
theorem any_provider_key_runs_stripe_mapping (key : String) :
    processWithProvider key (some emptyObject) =
      Outcome.rejected [⟨"", requiredMsg "transaction_id"⟩] := by
  rfl

/-- Claim C5: every request's outcome is exactly one of the three
tagged results, serialized as 200 `{"result": record}`,
400 `{"errors": [{"instancePath", "message"}...]}` or
500 `{"error": message}`; the handler's `try`/`catch` leaves no
per-request fault uncategorized. -/
theorem webhook_outcome_to_http (body : Json) :
    (∃ record, process (getField (some body) "payload") =
        Outcome.succeeded record ∧
      handleWebhook body = (200, Json.obj [("result", record)])) ∨
    (∃ errs, process (getField (some body) "payload") =
        Outcome.rejected errs ∧
      handleWebhook body =
        (400, Json.obj [("errors", Json.arr (errs.map violationToJson))])) ∨
    (∃ msg, process (getField (some body) "payload") =
        Outcome.failed msg ∧
      handleWebhook body = (500, Json.obj [("error", Json.str msg)])) := by
  unfold handleWebhook
  cases h : process (getField (some body) "payload") with
  | succeeded record => exact Or.inl ⟨record, rfl, rfl⟩
  | rejected errs => exact Or.inr (Or.inl ⟨errs, rfl, rfl⟩)
  | failed msg => exact Or.inr (Or.inr ⟨msg, rfl, rfl⟩)

/-- Claim C8: the pipeline is a pure function of the provider key and
payload — the compiled expression and schema are immutable module-level
constants in `src/mapper.js` and `src/validator.js`, and the embedding
carries no state component, so two calls on the same inputs yield the
same outcome. -/
theorem process_pure_deterministic (key : String) (p : Option Json) :
    processWithProvider key p = processWithProvider key p := rfl

/-- Claim C9: a validation run neither mutates the document nor coerces
its fields — `new Ajv()` keeps `coerceTypes`, `useDefaults` and
`removeAdditional` disabled, so the document the validator leaves
behind is the input itself. -/
theorem validator_preserves_document (d : Json) :
    (validateRun d).2 = d := rfl

/-- Claim C10: there is no provider dispatch at the `/webhook` entry
point — every request runs the Stripe expression, whose object
constructor binds the literal `provider = "stripe"` — so every
succeeded record's `provider` field is `"stripe"`. -/
theorem succeeded_record_provider_is_stripe (key : String)
    (p : Option Json) (r : Json)
    (h : processWithProvider key p = Outcome.succeeded r) :
    getField (some r) "provider" = some (Json.str "stripe") :=
  mapStripe_ok_provider p r (process_succeeded_inv p r h).1

/-- Witness for C10: the Stripe fixture run succeeds and its record's
provider field is `"stripe"`. -/
theorem succeeded_record_provider_is_stripe_witness :
    getField (some expectedStripeRecord) "provider" =
      some (Json.str "stripe") :=
  succeeded_record_provider_is_stripe "stripe" (some stripeDisputePayload)
    expectedStripeRecord rfl

/-- The mapped document of a successful evaluation, absent on a fault. -/
def okDoc : Except String Json → Option Json
  | Except.ok m => some m
  | Except.error _ => none

/-- A field list with no `amount` key fails validation: the Ajv
`required` pass reports some missing property. -/
theorem validateChargeback_false_of_missing_amount
    (fields : List (String × Json))
    (hl : lookupField fields "amount" = none) :
    validateChargeback (Json.obj fields) = false := by
  unfold validateChargeback
  simp only [ajvErrors]
  cases hr : firstRequiredViolation fields with
  | some v => simp
  | none =>
    exfalso
    unfold firstRequiredViolation at hr
    split_ifs at hr with h1 h2 h3 h4 h5
    rw [hl] at h4
    simp at h4

/-- A successful mapping whose record lacks the `amount` key makes the
pipeline reject, not fail. -/
theorem process_isRejected_of_missing_amount (p : Option Json)
    (fields : List (String × Json))
    (hm : mapStripe p = Except.ok (Json.obj fields))
    (hl : lookupField fields "amount" = none) :
    (process p).isRejected = true := by
  have hv := validateChargeback_false_of_missing_amount fields hl
  unfold process
  rw [hm]
  show (if validateChargeback (Json.obj fields) then
          Outcome.succeeded (Json.obj fields)
        else Outcome.rejected (ajvErrors (Json.obj fields))).isRejected = true
  rw [hv]
  rfl

/-- Claim C6, counterexample: a source path that is present with the
wrong type does make evaluation fail — `data.object.amount` set to the
string `"abc"` hits the expression's `/ 100`, JSONata raises an
arithmetic-type fault, and the pipeline returns `Failed`
(HTTP 500 through the handler's `catch`), not `Rejected`. -/
theorem string_amount_payload_fails :
    processWithProvider "stripe" (some stringAmountPayload) =
      Outcome.failed divTypeErrMsg := by
  rfl

/-- Claim C6, amended: a *missing* source path does not fail
evaluation — when `data.object.amount` is absent (and the currency
path is absent or a string, so no operator receives a wrong-typed
present value), the `amount` output field is omitted from the mapped
record and the pipeline runs to completion with `Rejected` (a
missing-required-field violation), not `Failed`; only a wrong-typed
present value consumed by an operator faults. -/
theorem missing_amount_output_omitted_and_rejected (p : Option Json)
    (ham : getField (getField (getField p "data") "object") "amount" = none)
    (hcur : currencyWellTyped
      (getField (getField (getField p "data") "object") "currency") = true) :
    getField (okDoc (mapStripe p)) "amount" = none ∧
    (process p).isRejected = true := by
  obtain ⟨c, hc⟩ : ∃ c, evalUppercaseArg
      (getField (getField (getField p "data") "object") "currency") =
        Except.ok c := by
    cases hcv : getField (getField (getField p "data") "object") "currency" with
    | none => exact ⟨none, rfl⟩
    | some v =>
      rw [hcv] at hcur
      cases v <;> simp [currencyWellTyped] at hcur
      exact ⟨_, rfl⟩
  have hmap : mapStripe p = Except.ok (Json.obj
      (optField "transaction_id"
        (getField (getField (getField p "data") "object") "charge") ++
       (optField "reason"
         (getField (getField (getField p "data") "object") "reason") ++
        (optField "currency" c ++
         (optField "amount" none ++
          [("provider", Json.str "stripe")]))))) := by
    unfold mapStripe
    rw [hc, ham]
    rfl
  have hl : lookupField
      (optField "transaction_id"
        (getField (getField (getField p "data") "object") "charge") ++
       (optField "reason"
         (getField (getField (getField p "data") "object") "reason") ++
        (optField "currency" c ++
         (optField "amount" none ++
          [("provider", Json.str "stripe")])))) "amount" = none := by
    rw [lookupField_skip_optField _ _ _ _ (by decide),
        lookupField_skip_optField _ _ _ _ (by decide),
        lookupField_skip_optField _ _ _ _ (by decide)]
    rfl
  constructor
  · rw [hmap]
    exact hl
  · exact process_isRejected_of_missing_amount p _ hmap hl

/-- Witness for the amended C6: a payload whose `data.object` carries
only a charge id maps to a record omitting `amount` and the pipeline
rejects it. -/
theorem missing_amount_output_omitted_and_rejected_witness :
    getField (okDoc (mapStripe (some (Json.obj
      [("data", Json.obj [("object", Json.obj
        [("charge", Json.str "ch_1")])])])))) "amount" = none ∧
    (process (some (Json.obj
      [("data", Json.obj [("object", Json.obj
        [("charge", Json.str "ch_1")])])]))).isRejected = true :=
  missing_amount_output_omitted_and_rejected
    (some (Json.obj [("data", Json.obj [("object", Json.obj
      [("charge", Json.str "ch_1")])])])) rfl rfl
